import Mathlib

/-!
Verification of the `time-mcp-demo` server (`src/index.ts`).

The repository is a single-file MCP server exposing one tool,
`getCurrentTime`.  The shallow embedding below models:

* host clock instants as milliseconds since the Unix epoch (`Nat`);
* the host's `Date.prototype.toISOString` (UTC rendering with a
  trailing `Z`), via the standard civil-from-days calendar algorithm;
* the host's `Intl.DateTimeFormat` timezone projection as an abstract
  timezone database (`TZDB`): for a zone name and an instant it either
  yields the civil date-time components observed in that zone or fails
  (any failure message), exactly the success/throw behaviour of the
  `Intl` constructor / `formatToParts` inside the `try` block;
* JavaScript argument values (`JValue`) with their truthiness and
  string coercion, so that `if (!timezone)` and the template literals
  are modelled faithfully;
* the tool function `getCurrentTime` (lines 44-83 of `src/index.ts`)
  with its throw/catch replaced by `Except`;
* the two request handlers (`ListTools`, `CallTool`, lines 106-149),
  where the uncaught `throw new Error("Unknown tool: ...")` is the
  `Except.error` outcome and a delivered response is `Except.ok`.
-/

/-- Civil date-time components (what `Intl.DateTimeFormat.formatToParts`
produces for `year`, `month`, `day`, `hour`, `minute`, `second`,
`fractionalSecond`, as numbers). -/
structure DateParts where
  year : Nat
  month : Nat
  day : Nat
  hour : Nat
  minute : Nat
  second : Nat
  millisecond : Nat
deriving Repr, DecidableEq

/-- Abstract model of the host IANA timezone database consulted by
`Intl.DateTimeFormat` with a `timeZone` option: given a zone name and an
instant (ms since epoch) it either returns the civil components observed
in that zone, or fails with some host error message (the `throw` caught
at line 77 of `src/index.ts`).  The spec (§9) treats this database as an
external capability, so it is a parameter of the development. -/
structure TZDB where
  localize : String → Nat → Except String DateParts

/-- A JavaScript runtime value, as far as the `arguments` mapping of a
tool call can carry one into `getCurrentTime`. -/
inductive JValue where
  | vundef
  | vnull
  | vbool (b : Bool)
  | vnum (n : Int)
  | vstr (s : String)
deriving Repr, DecidableEq

/-- JavaScript truthiness, as tested by `if (!timezone)` at line 48. -/
def JValue.truthy : JValue → Bool
  | .vundef => false
  | .vnull => false
  | .vbool b => b
  | .vnum n => decide (n ≠ 0)
  | .vstr s => !s.isEmpty

/-- JavaScript `ToString`, applied by the `timeZone:` option and by the
template literal in the error message. -/
def JValue.toJSString : JValue → String
  | .vundef => "undefined"
  | .vnull => "null"
  | .vbool b => if b then "true" else "false"
  | .vnum n => toString n
  | .vstr s => s

/-- The digit character for `n % 10`. -/
def digitChar (n : Nat) : Char := Char.ofNat (48 + n % 10)

/-- Two-digit zero-padded rendering (`month: "2-digit"` etc.; also the
fixed-width fields of `toISOString`). -/
def pad2 (n : Nat) : String := String.mk [digitChar (n / 10), digitChar n]

/-- Three-digit zero-padded rendering (`fractionalSecondDigits: 3`; the
millisecond field of `toISOString`). -/
def pad3 (n : Nat) : String :=
  String.mk [digitChar (n / 100), digitChar (n / 10), digitChar n]

/-- Four-digit zero-padded rendering (the year field of `toISOString`,
and `year: "numeric"` for years in 1000..9999). -/
def pad4 (n : Nat) : String :=
  String.mk [digitChar (n / 1000), digitChar (n / 100), digitChar (n / 10),
             digitChar n]

/-- UTC civil components of an instant (ms since epoch), by the standard
civil-from-days algorithm; models what `Date.prototype.toISOString`
computes internally. -/
def utcParts (ms : Nat) : DateParts :=
  let s := ms / 1000
  let days := s / 86400
  let z := days + 719468
  let era := z / 146097
  let doe := z % 146097
  let yoe := (doe - doe / 1460 + doe / 36524 - doe / 146096) / 365
  let doy := doe - (365 * yoe + yoe / 4 - yoe / 100)
  let mp := (5 * doy + 2) / 153
  let d := doy - (153 * mp + 2) / 5 + 1
  let m := if mp < 10 then mp + 3 else mp - 9
  let y := yoe + era * 400 + (if m ≤ 2 then 1 else 0)
  ⟨y, m, d, s / 3600 % 24, s / 60 % 60, s % 60, ms % 1000⟩

/-- Model of `Date.prototype.toISOString` (line 49 of `src/index.ts`):
`YYYY-MM-DDTHH:mm:ss.mmmZ` over the UTC components of the instant. -/
def toISOString (ms : Nat) : String :=
  let p := utcParts ms
  pad4 p.year ++ "-" ++ pad2 p.month ++ "-" ++ pad2 p.day ++ "T" ++
    pad2 p.hour ++ ":" ++ pad2 p.minute ++ ":" ++ pad2 p.second ++ "." ++
    pad3 p.millisecond ++ "Z"

/-- The zoned rendering built by the template literal at line 74:
`YYYY-MM-DDTHH:mm:ss.mmm` from the parts map — no offset, no `Z`. -/
def isoStringOfParts (p : DateParts) : String :=
  pad4 p.year ++ "-" ++ pad2 p.month ++ "-" ++ pad2 p.day ++ "T" ++
    pad2 p.hour ++ ":" ++ pad2 p.minute ++ ":" ++ pad2 p.second ++ "." ++
    pad3 p.millisecond

/-- The descriptive error thrown at lines 79-81 of `src/index.ts`. -/
def invalidTimezoneMessage (tz : String) : String :=
  "Invalid timezone: " ++ tz ++
    ". Please provide a valid IANA timezone identifier (e.g., 'America/New_York', 'Europe/London', 'UTC')."

/-- `getCurrentTime` (lines 44-83 of `src/index.ts`).  `Except.error` is
the `throw` of the descriptive error; any failure of the `Intl`
machinery (the `catch` at line 77) is db-level `Except.error`. -/
def getCurrentTime (db : TZDB) (nowMs : Nat) (timezone : JValue) :
    Except String String :=
  if timezone.truthy = false then
    Except.ok (toISOString nowMs)
  else
    match db.localize timezone.toJSString nowMs with
    | Except.ok parts => Except.ok (isoStringOfParts parts)
    | Except.error _ => Except.error (invalidTimezoneMessage timezone.toJSString)

/-- One text content item of a tool response. -/
structure TextContent where
  type : String
  text : String
deriving Repr, DecidableEq

/-- The response envelope produced by the `CallTool` handler.  The
source omits `isError` on success; the absent (undefined) flag is the
falsy `false`. -/
structure ToolResponse where
  content : List TextContent
  isError : Bool
deriving Repr, DecidableEq

/-- `args?.timezone` (line 124): `undefined` when the arguments mapping
is absent or has no `timezone` key. -/
def timezoneArg (args : Option (List (String × JValue))) : JValue :=
  match args with
  | none => JValue.vundef
  | some l =>
    match l.lookup "timezone" with
    | none => JValue.vundef
    | some v => v

/-- The `CallToolRequestSchema` handler (lines 116-149 of
`src/index.ts`).  `Except.error` is the uncaught
`throw new Error("Unknown tool: ...")`; `Except.ok` is a delivered
response.  The `catch` block turns the tool's failure into a structured
`isError: true` response (the thrown value is an `Error`, so
`errorMessage` is its message). -/
def callTool (db : TZDB) (nowMs : Nat) (name : String)
    (args : Option (List (String × JValue))) : Except String ToolResponse :=
  if name ≠ "getCurrentTime" then
    Except.error ("Unknown tool: " ++ name)
  else
    match getCurrentTime db nowMs (timezoneArg args) with
    | Except.ok currentTime =>
      Except.ok { content := [⟨"text", currentTime⟩], isError := false }
    | Except.error errorMessage =>
      Except.ok { content := [⟨"text", "Error: " ++ errorMessage⟩],
                  isError := true }

/-- One property of a JSON-schema `properties` object. -/
structure SchemaProperty where
  name : String
  type : String
  description : String
deriving Repr, DecidableEq

/-- The `inputSchema` shape used by the tool definition.  `required` is
absent in the source, so every listed property is optional. -/
structure InputSchema where
  type : String
  properties : List SchemaProperty
deriving Repr, DecidableEq

/-- A tool descriptor. -/
structure Tool where
  name : String
  description : String
  inputSchema : InputSchema
deriving Repr, DecidableEq

/-- `GET_CURRENT_TIME_TOOL` (lines 22-36 of `src/index.ts`). -/
def GET_CURRENT_TIME_TOOL : Tool :=
  { name := "getCurrentTime"
    description := "Returns the current date and time in ISO 8601 format. Optionally accepts a timezone parameter to return the time in a specific timezone (e.g., 'America/New_York', 'Europe/London', 'Asia/Tokyo')."
    inputSchema :=
      { type := "object"
        properties :=
          [{ name := "timezone"
             type := "string"
             description := "Optional IANA timezone identifier (e.g., 'America/New_York', 'Europe/London', 'UTC'). If not provided, returns time in UTC." }] } }

/-- The `ListToolsRequestSchema` handler (lines 106-110): a pure
constant, so it has no side effects and cannot fail. -/
def listTools : List Tool := [GET_CURRENT_TIME_TOOL]

/-- A concrete sample timezone database for witnesses: it knows `UTC`
and `Asia/Kolkata` (a fixed UTC+5:30 civil offset) and rejects every
other name the way the host rejects unknown zone names. -/
def sampleDB : TZDB :=
  ⟨fun tz ms =>
    if tz = "UTC" then Except.ok (utcParts ms)
    else if tz = "Asia/Kolkata" then Except.ok (utcParts (ms + 19800000))
    else Except.error ("Unsupported time zone specified " ++ tz)⟩

/-- One inbound `CallTool` request together with the clock instant at
which the handler serves it. -/
structure CallRequest where
  nowMs : Nat
  name : String
  args : Option (List (String × JValue))

/-- A whole session: each request is served by the same pure handler;
there is no state carried from one call to the next (the source handler
closes only over the immutable tool constant). -/
def runRequests (db : TZDB) (reqs : List CallRequest) :
    List (Except String ToolResponse) :=
  reqs.map (fun r => callTool db r.nowMs r.name r.args)

/-- `pat` occurs in `s` as a literal substring. -/
def containsSubstr (s pat : String) : Prop := ∃ a b : String, s = a ++ pat ++ b

/-- `c` is an ASCII decimal digit. -/
def isDigitChar (c : Char) : Bool := 48 ≤ c.toNat && c.toNat ≤ 57

/-- Every character of the list is an ASCII decimal digit. -/
def allDigits (l : List Char) : Bool := l.all isDigitChar

/-- `s` matches the 23-character shape `YYYY-MM-DDTHH:mm:ss.mmm`:
digits in the component positions, the literal separators in between,
and nothing after the milliseconds (in particular no offset marker and
no `Z`). -/
def matchesLocalPattern (s : String) : Bool :=
  match s.data with
  | [y1, y2, y3, y4, d1, mo1, mo2, d2, da1, da2, t, h1, h2, c1, mi1, mi2,
     c2, s1, s2, p, f1, f2, f3] =>
    allDigits [y1, y2, y3, y4, mo1, mo2, da1, da2, h1, h2, mi1, mi2, s1, s2,
               f1, f2, f3] &&
      (d1 == '-') && (d2 == '-') && (t == 'T') && (c1 == ':') &&
      (c2 == ':') && (p == '.')
  | _ => false

/-- `s` matches the 24-character shape `YYYY-MM-DDTHH:mm:ss.mmmZ`. -/
def matchesUTCPattern (s : String) : Bool :=
  match s.data with
  | [y1, y2, y3, y4, d1, mo1, mo2, d2, da1, da2, t, h1, h2, c1, mi1, mi2,
     c2, s1, s2, p, f1, f2, f3, z] =>
    allDigits [y1, y2, y3, y4, mo1, mo2, da1, da2, h1, h2, mi1, mi2, s1, s2,
               f1, f2, f3] &&
      (d1 == '-') && (d2 == '-') && (t == 'T') && (c1 == ':') &&
      (c2 == ':') && (p == '.') && (z == 'Z')
  | _ => false

theorem isDigitChar_digitChar (n : Nat) : isDigitChar (digitChar n) = true := by
  have h : n % 10 < 10 := Nat.mod_lt _ (by omega)
  unfold digitChar
  set m := n % 10 with hm
  interval_cases m <;> rfl

theorem matchesLocalPattern_isoStringOfParts (p : DateParts) :
    matchesLocalPattern (isoStringOfParts p) = true := by
  simp only [matchesLocalPattern, isoStringOfParts, pad4, pad2, pad3,
    String.data_append, List.cons_append, List.nil_append]
  simp [allDigits, isDigitChar_digitChar]

theorem length_isoStringOfParts (p : DateParts) :
    (isoStringOfParts p).length = 23 := by
  simp only [isoStringOfParts, pad4, pad2, pad3, String.length_append]
  rfl

theorem toISOString_eq (ms : Nat) :
    toISOString ms = isoStringOfParts (utcParts ms) ++ "Z" := rfl

theorem matchesUTCPattern_appendZ (p : DateParts) :
    matchesUTCPattern (isoStringOfParts p ++ "Z") = true := by
  simp only [matchesUTCPattern, isoStringOfParts, pad4, pad2, pad3,
    String.data_append, List.cons_append, List.nil_append]
  simp [allDigits, isDigitChar_digitChar]

theorem truthy_vstr_of_ne (s : String) (h : s ≠ "") :
    JValue.truthy (JValue.vstr s) = true := by
  have : s.isEmpty = false := by
    rw [Bool.eq_false_iff]
    intro hc
    exact h ((String.isEmpty_iff s).mp hc)
  simp [JValue.truthy, this]

/-- C2: when the timezone argument is absent (`undefined`) or the empty
string, `getCurrentTime` succeeds and returns the current instant
rendered in UTC ISO-8601 form with millisecond precision and a trailing
`Z`, matching `YYYY-MM-DDTHH:mm:ss.mmmZ`. -/
theorem getCurrentTime_utc_default (db : TZDB) (nowMs : Nat) (tzv : JValue)
    (h : tzv = JValue.vundef ∨ tzv = JValue.vstr "") :
    getCurrentTime db nowMs tzv = Except.ok (toISOString nowMs) ∧
      matchesUTCPattern (toISOString nowMs) = true := by
  have hp : matchesUTCPattern (toISOString nowMs) = true := by
    rw [toISOString_eq]
    exact matchesUTCPattern_appendZ _
  rcases h with h | h <;> subst h <;>
    exact ⟨by simp [getCurrentTime, JValue.truthy, String.isEmpty], hp⟩

theorem getCurrentTime_utc_default_witness :
    getCurrentTime sampleDB 1760300000123 JValue.vundef =
        Except.ok (toISOString 1760300000123) ∧
      matchesUTCPattern (toISOString 1760300000123) = true :=
  getCurrentTime_utc_default sampleDB 1760300000123 JValue.vundef (Or.inl rfl)

/-- C3: for a recognized timezone identifier, `getCurrentTime` returns a
23-character string matching `YYYY-MM-DDTHH:mm:ss.mmm` built from the
civil components observed in that zone, with no offset marker and no
`Z` suffix (the pattern fixes all 23 positions and forbids a 24th). -/
theorem getCurrentTime_zoned_format (db : TZDB) (nowMs : Nat) (tz : String)
    (parts : DateParts) (htz : tz ≠ "")
    (hloc : db.localize tz nowMs = Except.ok parts) :
    getCurrentTime db nowMs (JValue.vstr tz) =
        Except.ok (isoStringOfParts parts) ∧
      (isoStringOfParts parts).length = 23 ∧
      matchesLocalPattern (isoStringOfParts parts) = true := by
  refine ⟨?_, length_isoStringOfParts parts,
    matchesLocalPattern_isoStringOfParts parts⟩
  have ht := truthy_vstr_of_ne tz htz
  simp [getCurrentTime, ht, JValue.toJSString, hloc]

theorem getCurrentTime_zoned_format_witness :
    (getCurrentTime sampleDB 1760300000123 (JValue.vstr "UTC") =
        Except.ok (isoStringOfParts (utcParts 1760300000123)) ∧
      (isoStringOfParts (utcParts 1760300000123)).length = 23 ∧
      matchesLocalPattern (isoStringOfParts (utcParts 1760300000123)) = true) :=
  getCurrentTime_zoned_format sampleDB 1760300000123 "UTC"
    (utcParts 1760300000123) (by decide) rfl

/-- C5: for every tool name other than `"getCurrentTime"`, the handler
raises `Unknown tool: <name>` and this failure is not caught inside the
handler: the call produces an `Except.error` fault, never a structured
response, and is never silently dropped (the handler is total). -/
theorem callTool_unknown_tool (db : TZDB) (nowMs : Nat) (name : String)
    (args : Option (List (String × JValue))) (h : name ≠ "getCurrentTime") :
    callTool db nowMs name args = Except.error ("Unknown tool: " ++ name) := by
  simp [callTool, h]

theorem callTool_unknown_tool_witness :
    callTool sampleDB 1760300000123 "nonexistentTool" (some []) =
      Except.error ("Unknown tool: " ++ "nonexistentTool") :=
  callTool_unknown_tool sampleDB 1760300000123 "nonexistentTool" (some [])
    (by decide)

/-- C9: whatever failure the timezone-formatting machinery raises for a
truthy timezone value — unknown zone name, non-string value, any host
error `e` — `getCurrentTime` discards `e` and fails with the one fixed
descriptive message built from the (stringified) timezone value. -/
theorem getCurrentTime_error_unified (db : TZDB) (nowMs : Nat) (tzv : JValue)
    (e : String) (ht : tzv.truthy = true)
    (hloc : db.localize tzv.toJSString nowMs = Except.error e) :
    getCurrentTime db nowMs tzv =
      Except.error (invalidTimezoneMessage tzv.toJSString) := by
  simp [getCurrentTime, ht, hloc]

theorem getCurrentTime_error_unified_witness :
    getCurrentTime sampleDB 1760300000123 (JValue.vnum 5) =
      Except.error (invalidTimezoneMessage (JValue.toJSString (JValue.vnum 5))) :=
  getCurrentTime_error_unified sampleDB 1760300000123 (JValue.vnum 5)
    ("Unsupported time zone specified " ++ "5") (by decide) rfl

/-- C1: when the timezone string is not recognized (the formatter
fails), the handler catches the failure and delivers (`Except.ok`, never
a fault) a response with `isError = true` and a single text item whose
text begins with `Error: Invalid timezone: ` followed by the identifier. -/
theorem callTool_invalid_timezone (db : TZDB) (nowMs : Nat) (tz e : String)
    (htz : tz ≠ "") (hloc : db.localize tz nowMs = Except.error e) :
    ∃ rest : String,
      callTool db nowMs "getCurrentTime" (some [("timezone", JValue.vstr tz)]) =
        Except.ok
          ⟨[⟨"text", ("Error: Invalid timezone: " ++ tz) ++ rest⟩], true⟩ := by
  have ht := truthy_vstr_of_ne tz htz
  have hgc : getCurrentTime db nowMs
      (timezoneArg (some [("timezone", JValue.vstr tz)])) =
      Except.error (invalidTimezoneMessage tz) := by
    have harg : timezoneArg (some [("timezone", JValue.vstr tz)]) =
        JValue.vstr tz := rfl
    rw [harg]
    simp [getCurrentTime, ht, JValue.toJSString, hloc]
  refine ⟨". Please provide a valid IANA timezone identifier (e.g., 'America/New_York', 'Europe/London', 'UTC').", ?_⟩
  have hct : callTool db nowMs "getCurrentTime"
      (some [("timezone", JValue.vstr tz)]) =
      Except.ok ⟨[⟨"text", "Error: " ++ invalidTimezoneMessage tz⟩], true⟩ := by
    simp [callTool, hgc]
  exact hct

theorem callTool_invalid_timezone_witness :
    ∃ rest : String,
      callTool sampleDB 1760300000123 "getCurrentTime"
          (some [("timezone", JValue.vstr "Invalid/Zone")]) =
        Except.ok
          ⟨[⟨"text", ("Error: Invalid timezone: " ++ "Invalid/Zone") ++ rest⟩],
           true⟩ :=
  callTool_invalid_timezone sampleDB 1760300000123 "Invalid/Zone"
    ("Unsupported time zone specified " ++ "Invalid/Zone") (by decide) rfl

/-- C4: for an unrecognized timezone identifier the formatter fails with
the descriptive message, which contains the identifier itself and the
example identifiers `America/New_York`, `Europe/London` and `UTC`. -/
theorem getCurrentTime_invalid_timezone_message (db : TZDB) (nowMs : Nat)
    (tz e : String) (htz : tz ≠ "")
    (hloc : db.localize tz nowMs = Except.error e) :
    getCurrentTime db nowMs (JValue.vstr tz) =
        Except.error (invalidTimezoneMessage tz) ∧
      containsSubstr (invalidTimezoneMessage tz) tz ∧
      containsSubstr (invalidTimezoneMessage tz) "America/New_York" ∧
      containsSubstr (invalidTimezoneMessage tz) "Europe/London" ∧
      containsSubstr (invalidTimezoneMessage tz) "UTC" := by
  have ht := truthy_vstr_of_ne tz htz
  refine ⟨by simp [getCurrentTime, ht, JValue.toJSString, hloc],
    ⟨"Invalid timezone: ",
     ". Please provide a valid IANA timezone identifier (e.g., 'America/New_York', 'Europe/London', 'UTC').",
     rfl⟩,
    ⟨"Invalid timezone: " ++ tz ++ ". Please provide a valid IANA timezone identifier (e.g., '",
     "', 'Europe/London', 'UTC').", ?_⟩,
    ⟨"Invalid timezone: " ++ tz ++ ". Please provide a valid IANA timezone identifier (e.g., 'America/New_York', '",
     "', 'UTC').", ?_⟩,
    ⟨"Invalid timezone: " ++ tz ++ ". Please provide a valid IANA timezone identifier (e.g., 'America/New_York', 'Europe/London', '",
     "').", ?_⟩⟩ <;>
  simp [invalidTimezoneMessage, String.append_assoc]

theorem getCurrentTime_invalid_timezone_message_witness :
    getCurrentTime sampleDB 1760300000123 (JValue.vstr "Not/AZone") =
        Except.error (invalidTimezoneMessage "Not/AZone") ∧
      containsSubstr (invalidTimezoneMessage "Not/AZone") "Not/AZone" ∧
      containsSubstr (invalidTimezoneMessage "Not/AZone") "America/New_York" ∧
      containsSubstr (invalidTimezoneMessage "Not/AZone") "Europe/London" ∧
      containsSubstr (invalidTimezoneMessage "Not/AZone") "UTC" :=
  getCurrentTime_invalid_timezone_message sampleDB 1760300000123 "Not/AZone"
    ("Unsupported time zone specified " ++ "Not/AZone") (by decide) rfl

/-- C6: when the formatter succeeds the handler delivers a success
response: no `isError`, exactly one text item carrying the formatted
string; in particular with empty arguments it delivers the UTC
rendering, which matches `YYYY-MM-DDTHH:mm:ss.mmmZ`. -/
theorem callTool_success_response (db : TZDB) (nowMs : Nat)
    (args : Option (List (String × JValue))) (s : String)
    (h : getCurrentTime db nowMs (timezoneArg args) = Except.ok s) :
    callTool db nowMs "getCurrentTime" args =
        Except.ok { content := [⟨"text", s⟩], isError := false } ∧
      callTool db nowMs "getCurrentTime" (some []) =
        Except.ok ⟨[⟨"text", toISOString nowMs⟩], false⟩ ∧
      matchesUTCPattern (toISOString nowMs) = true := by
  refine ⟨by simp [callTool, h], ?_,
    by rw [toISOString_eq]; exact matchesUTCPattern_appendZ _⟩
  have h2 : getCurrentTime db nowMs (timezoneArg (some [])) =
      Except.ok (toISOString nowMs) := rfl
  simp [callTool, h2]

theorem callTool_success_response_witness :
    callTool sampleDB 1760300000123 "getCurrentTime" (some []) =
        Except.ok ⟨[⟨"text", toISOString 1760300000123⟩], false⟩ ∧
      callTool sampleDB 1760300000123 "getCurrentTime" (some []) =
        Except.ok ⟨[⟨"text", toISOString 1760300000123⟩], false⟩ ∧
      matchesUTCPattern (toISOString 1760300000123) = true :=
  callTool_success_response sampleDB 1760300000123 (some [])
    (toISOString 1760300000123) rfl

/-- C7: the list-tools handler returns exactly one descriptor, named
`getCurrentTime`, whose input schema is an object schema with exactly
the one string property `timezone` (no `required` marking exists in the
model, so the property is optional); `listTools` is a pure constant, so
it has no side effects and cannot fail. -/
theorem listTools_spec :
    listTools = [GET_CURRENT_TIME_TOOL] ∧
      listTools.length = 1 ∧
      GET_CURRENT_TIME_TOOL.name = "getCurrentTime" ∧
      GET_CURRENT_TIME_TOOL.inputSchema.type = "object" ∧
      List.map SchemaProperty.name GET_CURRENT_TIME_TOOL.inputSchema.properties =
        ["timezone"] ∧
      List.map SchemaProperty.type GET_CURRENT_TIME_TOOL.inputSchema.properties =
        ["string"] :=
  ⟨rfl, rfl, rfl, rfl, rfl, rfl⟩

/-- C10: every response the handler delivers for `getCurrentTime` —
success or failure, for every arguments value — has exactly one content
item, and it is a text item. -/
theorem callTool_single_text_content (db : TZDB) (nowMs : Nat)
    (args : Option (List (String × JValue))) (resp : ToolResponse)
    (h : callTool db nowMs "getCurrentTime" args = Except.ok resp) :
    ∃ t : String, resp.content = [⟨"text", t⟩] := by
  unfold callTool at h
  rw [if_neg (by simp)] at h
  cases hgc : getCurrentTime db nowMs (timezoneArg args) <;> rw [hgc] at h <;>
    injection h with h2 <;> exact ⟨_, by rw [← h2]⟩

theorem callTool_single_text_content_witness :
    ∃ t : String,
      ToolResponse.content
        { content := [⟨"text", toISOString 1760300000123⟩], isError := false } =
      [⟨"text", t⟩] :=
  callTool_single_text_content sampleDB 1760300000123 none _ rfl

theorem runRequests_getElem_append (db : TZDB) (pre post : List CallRequest)
    (r : CallRequest) :
    (runRequests db (pre ++ (r :: post)))[pre.length]? =
      some (callTool db r.nowMs r.name r.args) := by
  induction pre with
  | nil => simp [runRequests]
  | cons a l ih => simpa [runRequests] using ih

/-- C8: the response to a request is a function of its arguments and
clock instant alone: one and the same request, served at two different
positions of one session (whatever ran before or between), receives the
same response — there is no hidden counter or cross-request state. -/
theorem callTool_stateless (db : TZDB) (pre mid post : List CallRequest)
    (r : CallRequest) :
    (runRequests db (pre ++ (r :: (mid ++ (r :: post)))))[pre.length]? =
        some (callTool db r.nowMs r.name r.args) ∧
      (runRequests db
          (pre ++ (r :: (mid ++ (r :: post)))))[pre.length + 1 + mid.length]? =
        some (callTool db r.nowMs r.name r.args) := by
  constructor
  · exact runRequests_getElem_append db pre (mid ++ (r :: post)) r
  · have h : pre ++ (r :: (mid ++ (r :: post))) =
        (pre ++ (r :: mid)) ++ (r :: post) := by simp
    have hl : (pre ++ (r :: mid)).length = pre.length + 1 + mid.length := by
      rw [List.length_append, List.length_cons]
      omega
    rw [h, ← hl]
    exact runRequests_getElem_append db (pre ++ (r :: mid)) post r
